import Mathlib

/-!
Verification of the practice-prisma todo/user CRUD service.

This file shallowly embeds the service and repository layers of the
repository (src/src/services/todo.service.ts, src/src/services/user.service.ts,
src/src/repositories/todo.repository.ts, src/src/utils/todo.util.ts) in Lean.

Modelling conventions:
- Timestamps (Date values) are integers counting milliseconds; `now` is the
  value of `new Date()` at the single observation point of a request.
- Nullable columns (`startedTime`, `duration`, `userId`) are `Option` values.
- JavaScript truthiness tests that appear in the source (`!startedTime`,
  `!duration`, `if (data.userId)`, `if (data.email)`, `x || default`) are
  embedded by explicit helpers: a Date object is always truthy, a number is
  falsy exactly at 0, a string is falsy exactly when empty.
- The relational store is a list of records; a Prisma `findUnique`/`update`
  `where: { id }` is embedded as a first-match lookup / pointwise replacement.
- `async`/`await` code is embedded sequentially: an awaited promise whose
  rejection is rethrown becomes an `Except` error result.
-/

namespace PracticePrisma

/-- JavaScript truthiness of a nullable number: `null` and `0` are falsy. -/
def jsTruthyNum : Option Int → Bool
  | none => false
  | some v => v != 0

/-- JavaScript truthiness of a nullable Date: any Date object is truthy,
only `null` is falsy. -/
def jsTruthyDate : Option Int → Bool
  | none => false
  | some _ => true

/-- Embedding of `calculateExpiration` (src/src/utils/todo.util.ts lines 4-10,
identical copy at src/src/services/todo.service.ts lines 19-25):

  if (!startedTime || !duration) return false;
  const expirationTime = new Date(startedTime.getTime() + duration * 60 * 1000);
  return new Date() > expirationTime;

`now` stands for `new Date()` in milliseconds. Note the guard uses JavaScript
falsiness, so a duration of 0 takes the early-return branch. -/
def calculateExpiration (startedTime : Option Int) (duration : Option Int) (now : Int) : Bool :=
  if !jsTruthyDate startedTime || !jsTruthyNum duration then
    false
  else
    decide (startedTime.getD 0 + duration.getD 0 * 60 * 1000 < now)

/-- Claim C4 counterexample (the claim as stated is refuted here): a todo with `startedTime = 0` and a
present duration of `0` minutes is reported not expired at `now = 1`, even
though `now > startedTime + duration` minutes; the claim as stated demands
`true` for every present duration. The falsy guard in `calculateExpiration`
treats duration 0 as absent. -/
theorem calculateExpiration_zero_duration_counterexample :
    calculateExpiration (some 0) (some 0) 1 = false ∧ (0 : Int) + 0 * 60 * 1000 < 1 := by
  constructor
  · rfl
  · decide

/-- Claim C4 (amended): for a todo with startedTime T and a present nonzero duration
of D minutes, the expiration evaluator returns true exactly when now is
strictly past T + D minutes (in milliseconds, T + D * 60 * 1000); in
particular the boundary instant now = T + D minutes is not expired. -/
theorem calculateExpiration_window (T D now : Int) (hD : D ≠ 0) :
    (calculateExpiration (some T) (some D) now = true ↔ T + D * 60 * 1000 < now) ∧
      calculateExpiration (some T) (some D) (T + D * 60 * 1000) = false := by
  have hguard : (!jsTruthyDate (some T) || !jsTruthyNum (some D)) = false := by
    simp [jsTruthyDate, jsTruthyNum, hD]
  constructor
  · unfold calculateExpiration
    rw [hguard]
    simp
  · unfold calculateExpiration
    rw [hguard]
    simp

/-- Witness for claim C4's amended theorem at T = 0, D = 1: expired at one
millisecond past the one-minute boundary. -/
theorem calculateExpiration_window_witness :
    (calculateExpiration (some 0) (some 1) 60001 = true ↔ (0 : Int) + 1 * 60 * 1000 < 60001) ∧
      calculateExpiration (some 0) (some 1) ((0 : Int) + 1 * 60 * 1000) = false :=
  calculateExpiration_window 0 1 60001 (by decide)

/-- Claim C5: the expiration evaluator is total by construction (it is a Lean
function, hence never throws), and it returns false whenever the started
time or the duration is absent, for every evaluation time. -/
theorem calculateExpiration_absent_false (startedTime duration : Option Int) (now : Int)
    (h : startedTime = none ∨ duration = none) :
    calculateExpiration startedTime duration now = false := by
  rcases h with h | h
  · subst h
    rfl
  · subst h
    unfold calculateExpiration
    cases startedTime <;> rfl

/-- Witness for claim C5 at an absent started time. -/
theorem calculateExpiration_absent_false_witness :
    calculateExpiration none (some 5) 12345 = false :=
  calculateExpiration_absent_false none (some 5) 12345 (Or.inl rfl)

/-- Claim C10: a present duration of zero minutes falls into the falsy guard of
`calculateExpiration` exactly like an absent duration, so for every
started time (absent or any instant) and every evaluation time the
evaluator returns false: a zero-duration todo is never reported expired. -/
theorem calculateExpiration_zero_duration (startedTime : Option Int) (now : Int) :
    calculateExpiration startedTime (some 0) now = false := by
  unfold calculateExpiration
  cases startedTime <;> rfl

/-- A row of the Todo table (prisma model Todo), restricted to the columns the
service logic reads. Timestamps are in milliseconds. -/
structure Todo where
  id : Int
  title : String
  completed : Bool
  userId : Option Int
  startedTime : Option Int
  duration : Option Int
  tags : List String
  isExpired : Bool
  createdAt : Int
deriving Repr, DecidableEq

/-- A row of the User table restricted to the columns the service logic
reads (`UserService.create` persists only name and email). -/
structure User where
  id : Int
  name : String
  email : String
deriving Repr, DecidableEq

/-- The `where` clause built by `TodoService.findAll` (todo.service.ts lines
93-104) and `TodoRepository.findAll` (todo.repository.ts lines 47-58): only
the userId, completed and tag filters are pushed into the store query. -/
structure StoreFilters where
  userId : Option Int := none
  completed : Option Bool := none
  tag : Option String := none
deriving Repr, DecidableEq

/-- A todo row matches the `where` clause: equality on userId and completed
when the filter is present, and `tags: { has: tag }` is membership of the
tag in the tags array. -/
def matchesWhere (w : StoreFilters) (t : Todo) : Bool :=
  (match w.userId with
    | none => true
    | some u => t.userId == some u) &&
  (match w.completed with
    | none => true
    | some c => t.completed == c) &&
  (match w.tag with
    | none => true
    | some tg => t.tags.contains tg)

/-- Insert a todo into a list that is ordered by createdAt descending,
keeping the order (stable with respect to already-placed ties). -/
def insertCreatedDesc (t : Todo) : List Todo → List Todo
  | [] => [t]
  | u :: us => if u.createdAt < t.createdAt then t :: u :: us else u :: insertCreatedDesc t us

/-- Order a list of todos by createdAt descending (the store's
`orderBy: { createdAt: "desc" }`). -/
def sortCreatedDesc : List Todo → List Todo
  | [] => []
  | t :: ts => insertCreatedDesc t (sortCreatedDesc ts)

/-- Embedding of the store query issued by findAll: `findMany` with the
`where` clause, `orderBy: { createdAt: "desc" }`, `skip` and `take`. -/
def todoFindMany (db : List Todo) (w : StoreFilters) (skip take : Nat) : List Todo :=
  (((sortCreatedDesc (db.filter (matchesWhere w)))).drop skip).take take

/-- Embedding of `prisma.todo.count({ where })`: the number of rows in the
whole table matching the `where` clause. -/
def todoCount (db : List Todo) (w : StoreFilters) : Nat :=
  (db.filter (matchesWhere w)).length

/-- JavaScript `value || default` for an optional natural number: absent and
0 both fall back to the default (used for `filters?.page || 1` and
`filters?.limit || 10`). -/
def jsOrNat (o : Option Nat) (d : Nat) : Nat :=
  match o with
  | none => d
  | some v => if v = 0 then d else v

/-- `Math.ceil(a / b)` for natural a and positive b. -/
def ceilDiv (a b : Nat) : Nat :=
  (a + b - 1) / b

/-- The filter/pagination argument of `TodoService.findAll`. -/
structure FindAllFilters where
  userId : Option Int := none
  completed : Option Bool := none
  tag : Option String := none
  isExpired : Option Bool := none
  page : Option Nat := none
  limit : Option Nat := none
deriving Repr, DecidableEq

/-- The pagination metadata block returned by findAll. -/
structure Pagination where
  page : Nat
  limit : Nat
  total : Nat
  totalPages : Nat
deriving Repr, DecidableEq

/-- The result of a findAll call, together with the list of correction
writes (todo id, new isExpired value) the call issues against the store. -/
structure FindAllResult where
  data : List Todo
  pagination : Pagination
  writes : List (Int × Bool)
deriving Repr, DecidableEq

/-- Replace the cached isExpired field of a fetched row by the freshly
recomputed value (the `processedTodos` map of findAll, lines 127-133). -/
def recomputeTodo (now : Int) (t : Todo) : Todo :=
  { t with isExpired := calculateExpiration t.startedTime t.duration now }

/-- The correction-write guard shared by findAll (lines 142-146) and
findById (line 214): the freshly recomputed value differs from the record's
isExpired field (`todo.isExpired || false` on a boolean is the identity) and
startedTime and duration are both truthy. -/
def correctionDue (t : Todo) (now : Int) : Bool :=
  calculateExpiration t.startedTime t.duration now != t.isExpired
    && jsTruthyDate t.startedTime && jsTruthyNum t.duration

namespace TodoService

/-- Embedding of `TodoService.findAll` (todo.service.ts lines 80-171).
Steps, in source order: page/limit defaulting via `||`, skip arithmetic,
`where` clause from userId/completed/tag only, the store findMany/count
pair, the `processedTodos` recomputation map, the in-memory isExpired
filter, the `todosToUpdate` selection and its correction writes (note the
selection runs over `processedTodos`, whose isExpired field was already
overwritten by the recomputed value), and the pagination block whose
total switches to the filtered in-page count when an isExpired filter was
supplied. -/
def findAll (db : List Todo) (filters : FindAllFilters) (now : Int) : FindAllResult :=
  let page := jsOrNat filters.page 1
  let limit := jsOrNat filters.limit 10
  let skip := (page - 1) * limit
  let w : StoreFilters := { userId := filters.userId, completed := filters.completed, tag := filters.tag }
  let todos := todoFindMany db w skip limit
  let total := todoCount db w
  let processedTodos := todos.map (recomputeTodo now)
  let filteredTodos :=
    match filters.isExpired with
    | none => processedTodos
    | some b => processedTodos.filter (fun t => t.isExpired == b)
  let todosToUpdate := processedTodos.filter (fun t => correctionDue t now)
  let writes := todosToUpdate.map (fun t => (t.id, t.isExpired))
  let reportedTotal :=
    match filters.isExpired with
    | none => total
    | some _ => filteredTodos.length
  { data := filteredTodos,
    pagination :=
      { page := page, limit := limit, total := reportedTotal,
        totalPages := ceilDiv reportedTotal limit },
    writes := writes }

end TodoService

/-- The errors the service layer raises (src/src/types/errors.types via the
services): NotFoundError with a resource label and identifier, ConflictError
with a message, and a raw store failure rethrown by a service catch block. -/
inductive SvcError where
  | notFound (resource : String) (id : Int)
  | conflict (message : String)
  | storeError
deriving Repr, DecidableEq

/-- Outcome of the single awaited store write inside findById: the update
promise either resolves or rejects. -/
inductive StoreWriteOutcome where
  | ok
  | fails
deriving Repr, DecidableEq

/-- The value of a findById call: the returned record (isExpired replaced by
the recomputed value) and the correction writes persisted to the store. -/
structure FindByIdResult where
  todo : Todo
  writes : List (Int × Bool)
deriving Repr, DecidableEq

namespace TodoService

/-- Embedding of `TodoService.findById` (todo.service.ts lines 190-232),
parameterised by the outcome of the awaited correction write. Source order:
`findUnique` by id (first match), NotFoundError when absent, recomputation of
isExpired, and, when the guard of line 214 holds, an awaited
`prisma.todo.update` persisting the recomputed value. Because that update is
awaited inside the try block and the catch rethrows every non-NotFound error
after logging it, a rejected write makes the whole call fail with the store
error. -/
def findByIdCore (db : List Todo) (id : Int) (now : Int) (w : StoreWriteOutcome) :
    Except SvcError FindByIdResult :=
  match db.find? (fun t => t.id == id) with
  | none => Except.error (SvcError.notFound "Todo" id)
  | some todo =>
    let isExpired := calculateExpiration todo.startedTime todo.duration now
    if correctionDue todo now then
      match w with
      | StoreWriteOutcome.fails => Except.error SvcError.storeError
      | StoreWriteOutcome.ok =>
          Except.ok { todo := { todo with isExpired := isExpired }, writes := [(id, isExpired)] }
    else
      Except.ok { todo := { todo with isExpired := isExpired }, writes := [] }

/-- `TodoService.findById` when the store write (if any) succeeds. -/
def findById (db : List Todo) (id : Int) (now : Int) : Except SvcError FindByIdResult :=
  findByIdCore db id now StoreWriteOutcome.ok

end TodoService

/-- The argument of `TodoService.create` (todo.service.ts lines 265-272):
title plus optional completed, userId, startedTime (an ISO string, embedded
as the parsed timestamp), duration and tags. -/
structure CreateTodoInput where
  title : String
  completed : Option Bool := none
  userId : Option Int := none
  startedTime : Option Int := none
  duration : Option Int := none
  tags : Option (List String) := none
deriving Repr, DecidableEq

/-- JavaScript `data.duration || null`: absent and 0 both become null. -/
def jsOrNull (o : Option Int) : Option Int :=
  match o with
  | none => none
  | some v => if v = 0 then none else some v

namespace TodoService

/-- Embedding of `TodoService.create` (todo.service.ts lines 265-325).
Source order: `if (data.userId)` (a truthiness test, so userId 0 skips the
check) then `findUnique` on the user id and NotFoundError when absent;
`startedTime` parsed or null; isExpired computed from startedTime and
`data.duration || null`; the row built with `completed || false`,
`duration || null`, `tags || []` and a user connect only when userId is
truthy; then the store insert. Returns the service outcome together with the
todo table after the call ('persists nothing' is the table being unchanged). -/
def create (users : List User) (todos : List Todo) (c : CreateTodoInput)
    (newId now createdAt : Int) : Except SvcError Todo × List Todo :=
  if jsTruthyNum c.userId && !(users.any (fun u => some u.id == c.userId)) then
    (Except.error (SvcError.notFound "User" (c.userId.getD 0)), todos)
  else
    let startedTime := c.startedTime
    let duration := jsOrNull c.duration
    let isExpired := calculateExpiration startedTime duration now
    let newTodo : Todo :=
      { id := newId, title := c.title,
        completed := c.completed.getD false,
        userId := if jsTruthyNum c.userId then c.userId else none,
        startedTime := startedTime, duration := duration,
        tags := c.tags.getD [],
        isExpired := isExpired, createdAt := createdAt }
    (Except.ok newTodo, todos ++ [newTodo])

end TodoService

/-- The argument of `TodoService.update` (todo.service.ts lines 354-397):
the optional fields of the partial update payload; a field that is `none`
was not supplied (`undefined`). -/
structure TodoUpdateInput where
  title : Option String := none
  completed : Option Bool := none
  startedTime : Option Int := none
  duration : Option Int := none
  tags : Option (List String) := none
deriving Repr, DecidableEq

/-- Apply a Prisma `todo.update` data object built from the supplied fields
of a partial update (spread of `data`, lines 359 and 385-387) plus the
optionally recomputed isExpired, to a stored row: supplied fields replace
the column, unsupplied columns keep their stored value. -/
def applyTodoUpdate (t : Todo) (d : TodoUpdateInput) (ie : Option Bool) : Todo :=
  { t with
    title := d.title.getD t.title,
    completed := d.completed.getD t.completed,
    startedTime :=
      match d.startedTime with
      | some s => some s
      | none => t.startedTime,
    duration :=
      match d.duration with
      | some v => some v
      | none => t.duration,
    tags := d.tags.getD t.tags,
    isExpired := ie.getD t.isExpired }

/-- Apply one correction write (todo id, new isExpired value) to the todo
table: `prisma.todo.update({ where: { id }, data: { isExpired } })`. -/
def applyWrite (db : List Todo) (wr : Int × Bool) : List Todo :=
  db.map (fun u => if u.id == wr.1 then { u with isExpired := wr.2 } else u)

namespace TodoService

/-- Embedding of `TodoService.update` (todo.service.ts lines 354-405).
Source order: `this.findById(id)` (existence check, recomputation, possible
correction write — its writes are applied to the table first); the update
data is the spread of the supplied fields; when startedTime or duration is
among the supplied fields, isExpired is recomputed from the merged view
(the supplied value where given, otherwise the existing record's value) and
added to the same update data; then one `prisma.todo.update` persists the
data object. Returns the updated record and the new todo table. -/
def update (db : List Todo) (id : Int) (d : TodoUpdateInput) (now : Int) :
    Except SvcError (Todo × List Todo) :=
  match findById db id now with
  | Except.error e => Except.error e
  | Except.ok r =>
    let db1 := r.writes.foldl applyWrite db
    let ie : Option Bool :=
      if d.startedTime.isSome || d.duration.isSome then
        let startedTime :=
          match d.startedTime with
          | some s => some s
          | none => r.todo.startedTime
        let duration :=
          match d.duration with
          | some v => some v
          | none => r.todo.duration
        some (calculateExpiration startedTime duration now)
      else none
    match db1.find? (fun t => t.id == id) with
    | none => Except.error (SvcError.notFound "Todo" id)
    | some row =>
      let updated := applyTodoUpdate row d ie
      Except.ok (updated, db1.map (fun u => if u.id == id then updated else u))

end TodoService

/-- JavaScript truthiness of an optional string: absent and the empty
string are falsy. -/
def jsTruthyStr : Option String → Bool
  | none => false
  | some s => s != ""

/-- The argument of `UserService.create` (user.service.ts line 118); the
create call persists only name and email (lines 129-137). -/
structure UserCreateInput where
  name : String
  email : String
deriving Repr, DecidableEq

/-- The argument of `UserService.update` (user.service.ts line 171),
restricted to the columns the embedded User carries. -/
structure UserUpdateInput where
  name : Option String := none
  email : Option String := none
deriving Repr, DecidableEq

/-- Apply a Prisma `user.update` data object: supplied fields replace the
column, unsupplied columns keep their stored value. -/
def applyUserUpdate (u : User) (d : UserUpdateInput) : User :=
  { u with name := d.name.getD u.name, email := d.email.getD u.email }

namespace UserService

/-- Embedding of `UserService.create` (user.service.ts lines 118-145):
`findUnique` on the email (first match), ConflictError when a row with that
email exists, otherwise the insert of name and email. Returns the outcome
together with the user table after the call. -/
def create (db : List User) (c : UserCreateInput) (newId : Int) :
    Except SvcError User × List User :=
  match db.find? (fun u => u.email == c.email) with
  | some _ => (Except.error (SvcError.conflict "User with this email already exists"), db)
  | none =>
    let u : User := { id := newId, name := c.name, email := c.email }
    (Except.ok u, db ++ [u])

/-- Embedding of `UserService.update` (user.service.ts lines 171-203):
`findById` existence check (NotFoundError when the id is absent), then
`if (data.email)` — a truthiness test, skipped when the email is absent or
empty — looks the email up and raises ConflictError exactly when the found
row's id differs from the updated id; otherwise one `prisma.user.update`
applies the supplied fields. Returns the outcome and the new user table. -/
def update (db : List User) (id : Int) (d : UserUpdateInput) :
    Except SvcError User × List User :=
  match db.find? (fun u => u.id == id) with
  | none => (Except.error (SvcError.notFound "User" id), db)
  | some _ =>
    let emailConflict :=
      jsTruthyStr d.email &&
        (match db.find? (fun u => some u.email == d.email) with
          | some existing => existing.id != id
          | none => false)
    if emailConflict then
      (Except.error (SvcError.conflict "User with this email already exists"), db)
    else
      match db.find? (fun u => u.id == id) with
      | none => (Except.error (SvcError.notFound "User" id), db)
      | some u0 =>
        let u1 := applyUserUpdate u0 d
        (Except.ok u1, db.map (fun v => if v.id == id then u1 else v))

end UserService

/-- Recomputing the cached field and then asking whether a correction is due
always answers no: the guard compares the freshly recomputed value against
the field that was just overwritten with that same value. -/
theorem correctionDue_recomputeTodo (t : Todo) (now : Int) :
    correctionDue (recomputeTodo now t) now = false := by
  simp [correctionDue, recomputeTodo]

/-- The todosToUpdate selection of findAll runs over the processed
(recomputed) todos, so it is empty for every fetched page. -/
theorem filter_correctionDue_map_recompute (now : Int) (l : List Todo) :
    (l.map (recomputeTodo now)).filter (fun t => correctionDue t now) = [] := by
  induction l with
  | nil => rfl
  | cons a as ih =>
    simp only [List.map_cons, List.filter_cons, correctionDue_recomputeTodo]
    exact ih

/-- Claim C1 (code bug): the claim requires a correction write for every
returned record whose recomputed expiration differs from the stored
isExpired with startedTime and duration present. findAll never issues any
correction write at all: its todosToUpdate filter (todo.service.ts lines
142-146) runs over processedTodos, whose isExpired field was already
replaced by the recomputed value, so the differ-test compares the recomputed
value against itself. The first conjunct proves the writes list is empty for
every store state, filter and time; the second exhibits a concrete failing
input (a stale stored record with both fields present whose recomputed value
differs) on which findAll issues no write, while findById on the same record
does issue the claimed write (lines 209-219 compare against the raw stored
row, the stated behaviour). -/
theorem findAll_never_issues_correction_writes :
    (∀ (db : List Todo) (filters : FindAllFilters) (now : Int),
        (TodoService.findAll db filters now).writes = []) ∧
      (let t : Todo :=
        { id := 1, title := "a", completed := false, userId := none,
          startedTime := some 0, duration := some 1, tags := [],
          isExpired := false, createdAt := 0 }
       calculateExpiration t.startedTime t.duration 120000 = true ∧
         t.isExpired = false ∧
         jsTruthyDate t.startedTime = true ∧
         jsTruthyNum t.duration = true ∧
         (TodoService.findAll [t] {} 120000).writes = [] ∧
         TodoService.findById [t] 1 120000
           = Except.ok { todo := { t with isExpired := true }, writes := [(1, true)] }) := by
  constructor
  · intro db filters now
    simp only [TodoService.findAll, filter_correctionDue_map_recompute, List.map_nil]
  · exact ⟨by decide, rfl, rfl, rfl, by decide, by rfl⟩

/-- Claim C2 counterexample: on a store holding one stale record (stored
isExpired false, startedTime 0, duration 1 minute) read at now = 120000 ms,
the correction write is due, and when that awaited write fails the whole
findById call fails with the store error instead of succeeding: the failure
is propagated to the caller, refuting the claim that the request still
succeeds. -/
theorem findById_failed_write_request_fails_counterexample :
    (let t : Todo :=
      { id := 1, title := "a", completed := false, userId := none,
        startedTime := some 0, duration := some 1, tags := [],
        isExpired := false, createdAt := 0 }
     correctionDue t 120000 = true ∧
       TodoService.findByIdCore [t] 1 120000 StoreWriteOutcome.fails
         = Except.error SvcError.storeError) := by
  exact ⟨by decide, by rfl⟩

/-- Claim C2 (amended): the expiration-correction write in findById is
awaited, so the response is blocked on its completion, and when the write
fails the failure is logged and rethrown: the request fails with the store
error instead of succeeding. (In findAll the corresponding Promise.all is
also awaited, but it is never reached because findAll never selects any
record to update.) -/
theorem findById_correction_write_failure_propagates
    (db : List Todo) (id : Int) (now : Int) (t0 : Todo)
    (hfind : db.find? (fun t => t.id == id) = some t0)
    (hdue : correctionDue t0 now = true) :
    TodoService.findByIdCore db id now StoreWriteOutcome.fails
      = Except.error SvcError.storeError := by
  unfold TodoService.findByIdCore
  rw [hfind]
  simp [hdue]

/-- Witness for claim C2's amended theorem on a one-row store with a due
correction. -/
theorem findById_correction_write_failure_propagates_witness :
    TodoService.findByIdCore
        [{ id := 1, title := "a", completed := false, userId := none,
           startedTime := some 0, duration := some 1, tags := [],
           isExpired := false, createdAt := 0 }] 1 120000 StoreWriteOutcome.fails
      = Except.error SvcError.storeError :=
  findById_correction_write_failure_propagates
    [{ id := 1, title := "a", completed := false, userId := none,
       startedTime := some 0, duration := some 1, tags := [],
       isExpired := false, createdAt := 0 }] 1 120000
    { id := 1, title := "a", completed := false, userId := none,
      startedTime := some 0, duration := some 1, tags := [],
      isExpired := false, createdAt := 0 }
    (by decide) (by decide)

/-- Inserting into a createdAt-descending list is a permutation of consing. -/
theorem insertCreatedDesc_perm (t : Todo) (l : List Todo) :
    List.Perm (insertCreatedDesc t l) (t :: l) := by
  induction l with
  | nil => exact List.Perm.refl _
  | cons u us ih =>
    unfold insertCreatedDesc
    by_cases h : u.createdAt < t.createdAt
    · rw [if_pos h]
    · rw [if_neg h]
      exact (List.Perm.cons u ih).trans (List.Perm.swap t u us)

/-- The createdAt-descending sort permutes its input. -/
theorem sortCreatedDesc_perm (l : List Todo) : List.Perm (sortCreatedDesc l) l := by
  induction l with
  | nil => exact List.Perm.refl _
  | cons t ts ih =>
    exact (insertCreatedDesc_perm t (sortCreatedDesc ts)).trans (List.Perm.cons t ih)

/-- Inserting into a createdAt-descending list keeps it descending. -/
theorem insertCreatedDesc_pairwise (t : Todo) (l : List Todo)
    (h : l.Pairwise (fun a b => b.createdAt ≤ a.createdAt)) :
    (insertCreatedDesc t l).Pairwise (fun a b => b.createdAt ≤ a.createdAt) := by
  induction l with
  | nil => simp [insertCreatedDesc]
  | cons u us ih =>
    rw [List.pairwise_cons] at h
    unfold insertCreatedDesc
    by_cases hc : u.createdAt < t.createdAt
    · rw [if_pos hc]
      rw [List.pairwise_cons]
      refine ⟨?_, List.pairwise_cons.mpr h⟩
      intro b hb
      rcases List.mem_cons.mp hb with rfl | hb2
      · exact le_of_lt hc
      · exact le_trans (h.1 b hb2) (le_of_lt hc)
    · rw [if_neg hc]
      rw [List.pairwise_cons]
      refine ⟨?_, ih h.2⟩
      intro b hb
      have hmem := (insertCreatedDesc_perm t us).mem_iff.mp hb
      rcases List.mem_cons.mp hmem with rfl | hb2
      · exact le_of_not_lt hc
      · exact h.1 b hb2

/-- The createdAt-descending sort produces a descending list. -/
theorem sortCreatedDesc_pairwise (l : List Todo) :
    (sortCreatedDesc l).Pairwise (fun a b => b.createdAt ≤ a.createdAt) := by
  induction l with
  | nil => simp [sortCreatedDesc]
  | cons t ts ih => exact insertCreatedDesc_pairwise t (sortCreatedDesc ts) ih

/-- Claim C9: for every findAll call without an isExpired filter, the store
is queried with only the userId/completed/tag filters, ordered by createdAt
descending, with skip = (page - 1) * limit and take = limit, page and limit
defaulting to 1 and 10 when absent; the returned data is that page with
isExpired recomputed, pagination.total is the full count of matching rows
across all pages, and totalPages = ceil(total / limit). The last two
conjuncts state the ordering is a genuine createdAt-descending permutation
of the matching rows. -/
theorem findAll_store_query_and_pagination
    (db : List Todo) (filters : FindAllFilters) (now : Int)
    (h : filters.isExpired = none) :
    (TodoService.findAll db filters now).data
        = (((sortCreatedDesc (db.filter (matchesWhere
              { userId := filters.userId, completed := filters.completed,
                tag := filters.tag }))).drop
              ((jsOrNat filters.page 1 - 1) * jsOrNat filters.limit 10)).take
              (jsOrNat filters.limit 10)).map (recomputeTodo now) ∧
    (TodoService.findAll db filters now).pagination
        = { page := jsOrNat filters.page 1, limit := jsOrNat filters.limit 10,
            total := (db.filter (matchesWhere
              { userId := filters.userId, completed := filters.completed,
                tag := filters.tag })).length,
            totalPages := ceilDiv
              ((db.filter (matchesWhere
                { userId := filters.userId, completed := filters.completed,
                  tag := filters.tag })).length) (jsOrNat filters.limit 10) } ∧
    (filters.page = none → jsOrNat filters.page 1 = 1) ∧
    (filters.limit = none → jsOrNat filters.limit 10 = 10) ∧
    List.Perm
      (sortCreatedDesc (db.filter (matchesWhere
        { userId := filters.userId, completed := filters.completed,
          tag := filters.tag })))
      (db.filter (matchesWhere
        { userId := filters.userId, completed := filters.completed,
          tag := filters.tag })) ∧
    (sortCreatedDesc (db.filter (matchesWhere
        { userId := filters.userId, completed := filters.completed,
          tag := filters.tag }))).Pairwise (fun a b => b.createdAt ≤ a.createdAt) := by
  refine ⟨?_, ?_, ?_, ?_, sortCreatedDesc_perm _, sortCreatedDesc_pairwise _⟩
  · simp only [TodoService.findAll, todoFindMany, h]
  · simp only [TodoService.findAll, todoFindMany, todoCount, h]
  · intro hp
    simp [jsOrNat, hp]
  · intro hl
    simp [jsOrNat, hl]

/-- Witness for claim C9 on a three-row store with page 2, limit 2 and a
userId filter. -/
theorem findAll_store_query_and_pagination_witness :
    (TodoService.findAll
        [{ id := 1, title := "a", completed := false, userId := some 7,
           startedTime := none, duration := none, tags := [],
           isExpired := false, createdAt := 10 },
         { id := 2, title := "b", completed := false, userId := some 7,
           startedTime := none, duration := none, tags := [],
           isExpired := false, createdAt := 20 },
         { id := 3, title := "c", completed := false, userId := some 7,
           startedTime := none, duration := none, tags := [],
           isExpired := false, createdAt := 30 }]
        { userId := some 7, page := some 2, limit := some 2 } 0).data
        = (((sortCreatedDesc
              ([{ id := 1, title := "a", completed := false, userId := some 7,
                  startedTime := none, duration := none, tags := [],
                  isExpired := false, createdAt := 10 },
                { id := 2, title := "b", completed := false, userId := some 7,
                  startedTime := none, duration := none, tags := [],
                  isExpired := false, createdAt := 20 },
                { id := 3, title := "c", completed := false, userId := some 7,
                  startedTime := none, duration := none, tags := [],
                  isExpired := false, createdAt := 30 }].filter (matchesWhere
              { userId := (some 7 : Option Int), completed := none,
                tag := none }))).drop
              ((jsOrNat (some 2) 1 - 1) * jsOrNat (some 2) 10)).take
              (jsOrNat (some 2) 10)).map (recomputeTodo 0) ∧
    (TodoService.findAll
        [{ id := 1, title := "a", completed := false, userId := some 7,
           startedTime := none, duration := none, tags := [],
           isExpired := false, createdAt := 10 },
         { id := 2, title := "b", completed := false, userId := some 7,
           startedTime := none, duration := none, tags := [],
           isExpired := false, createdAt := 20 },
         { id := 3, title := "c", completed := false, userId := some 7,
           startedTime := none, duration := none, tags := [],
           isExpired := false, createdAt := 30 }]
        { userId := some 7, page := some 2, limit := some 2 } 0).pagination
        = { page := 2, limit := 2, total := 3, totalPages := 2 } := by
  have h := findAll_store_query_and_pagination
    [{ id := 1, title := "a", completed := false, userId := some 7,
       startedTime := none, duration := none, tags := [],
       isExpired := false, createdAt := 10 },
     { id := 2, title := "b", completed := false, userId := some 7,
       startedTime := none, duration := none, tags := [],
       isExpired := false, createdAt := 20 },
     { id := 3, title := "c", completed := false, userId := some 7,
       startedTime := none, duration := none, tags := [],
       isExpired := false, createdAt := 30 }]
    { userId := some 7, page := some 2, limit := some 2 } 0 rfl
  exact ⟨h.1, by rw [h.2.1]; decide⟩

/-- Claim C3: when an isExpired filter is supplied, findAll still queries the
store with only the userId/completed/tag filters and the same skip/take (the
store query is unaffected), applies the isExpired filter in memory to the
recomputed records of the already-fetched page only, and reports
pagination.total as the number of matching records within that single page,
with totalPages = ceil(that count / limit) — not the true totals across all
pages. -/
theorem findAll_isExpired_filter_in_memory
    (db : List Todo) (filters : FindAllFilters) (now : Int) (b : Bool)
    (h : filters.isExpired = some b) :
    (TodoService.findAll db filters now).data
        = ((todoFindMany db
              { userId := filters.userId, completed := filters.completed,
                tag := filters.tag }
              ((jsOrNat filters.page 1 - 1) * jsOrNat filters.limit 10)
              (jsOrNat filters.limit 10)).map (recomputeTodo now)).filter
            (fun t => t.isExpired == b) ∧
    (TodoService.findAll db filters now).pagination.total
        = (((todoFindMany db
              { userId := filters.userId, completed := filters.completed,
                tag := filters.tag }
              ((jsOrNat filters.page 1 - 1) * jsOrNat filters.limit 10)
              (jsOrNat filters.limit 10)).map (recomputeTodo now)).filter
            (fun t => t.isExpired == b)).length ∧
    (TodoService.findAll db filters now).pagination.totalPages
        = ceilDiv
            ((((todoFindMany db
                { userId := filters.userId, completed := filters.completed,
                  tag := filters.tag }
                ((jsOrNat filters.page 1 - 1) * jsOrNat filters.limit 10)
                (jsOrNat filters.limit 10)).map (recomputeTodo now)).filter
              (fun t => t.isExpired == b)).length)
            (jsOrNat filters.limit 10) := by
  refine ⟨?_, ?_, ?_⟩ <;> simp only [TodoService.findAll, h]

/-- Witness for claim C3 on a two-row store (one stale-expired row, one
unexpirable row) with the filter isExpired = true: the reported total is the
in-page count 1 and totalPages is 1, even though the store count of the page
base is 2. -/
theorem findAll_isExpired_filter_in_memory_witness :
    ((TodoService.findAll
        [{ id := 1, title := "a", completed := false, userId := none,
           startedTime := some 0, duration := some 1, tags := [],
           isExpired := false, createdAt := 10 },
         { id := 2, title := "b", completed := false, userId := none,
           startedTime := none, duration := none, tags := [],
           isExpired := false, createdAt := 20 }]
        { isExpired := some true } 120000).data
        = ((todoFindMany
              [{ id := 1, title := "a", completed := false, userId := none,
                 startedTime := some 0, duration := some 1, tags := [],
                 isExpired := false, createdAt := 10 },
               { id := 2, title := "b", completed := false, userId := none,
                 startedTime := none, duration := none, tags := [],
                 isExpired := false, createdAt := 20 }]
              { userId := none, completed := none, tag := none }
              ((jsOrNat none 1 - 1) * jsOrNat none 10)
              (jsOrNat none 10)).map (recomputeTodo 120000)).filter
            (fun t => t.isExpired == true) ∧
      (TodoService.findAll
        [{ id := 1, title := "a", completed := false, userId := none,
           startedTime := some 0, duration := some 1, tags := [],
           isExpired := false, createdAt := 10 },
         { id := 2, title := "b", completed := false, userId := none,
           startedTime := none, duration := none, tags := [],
           isExpired := false, createdAt := 20 }]
        { isExpired := some true } 120000).pagination.total = 1 ∧
      (TodoService.findAll
        [{ id := 1, title := "a", completed := false, userId := none,
           startedTime := some 0, duration := some 1, tags := [],
           isExpired := false, createdAt := 10 },
         { id := 2, title := "b", completed := false, userId := none,
           startedTime := none, duration := none, tags := [],
           isExpired := false, createdAt := 20 }]
        { isExpired := some true } 120000).pagination.totalPages = 1) := by
  have h := findAll_isExpired_filter_in_memory
    [{ id := 1, title := "a", completed := false, userId := none,
       startedTime := some 0, duration := some 1, tags := [],
       isExpired := false, createdAt := 10 },
     { id := 2, title := "b", completed := false, userId := none,
       startedTime := none, duration := none, tags := [],
       isExpired := false, createdAt := 20 }]
    { isExpired := some true } 120000 true rfl
  exact ⟨h.1, by rw [h.2.1]; decide, by rw [h.2.2]; decide⟩

/-- Claim C8 counterexample: a create request carrying userId 0, against a
store with no users at all (so no user with that id exists), does not fail
with NotFoundError and does persist a todo. The guard `if (data.userId)` is
a truthiness test, so userId 0 skips the existence check, and the spread
guard `...(data.userId && ...)` likewise skips the user association, so the
row is inserted with a null userId. -/
theorem todoService_create_userId_zero_counterexample :
    TodoService.create [] [] { title := "t", userId := some 0 } 1 0 0
      = (Except.ok
          { id := 1, title := "t", completed := false, userId := none,
            startedTime := none, duration := none, tags := [],
            isExpired := false, createdAt := 0 },
         [{ id := 1, title := "t", completed := false, userId := none,
            startedTime := none, duration := none, tags := [],
            isExpired := false, createdAt := 0 }]) := by
  rfl

/-- Claim C8 (amended): for every todo-create request carrying a nonzero
userId for which no User exists, TodoService.create fails with NotFoundError
naming that user id and persists nothing — the todo table is returned
unchanged, because the user-existence check precedes the store insert.
(A request carrying userId 0 is treated by the code as carrying no user:
the truthiness guard skips both the existence check and the association.) -/
theorem todoService_create_missing_user_not_found
    (users : List User) (todos : List Todo) (c : CreateTodoInput)
    (newId now createdAt : Int) (uid : Int)
    (huid : c.userId = some uid) (hnz : uid ≠ 0)
    (habsent : ∀ u ∈ users, u.id ≠ uid) :
    TodoService.create users todos c newId now createdAt
      = (Except.error (SvcError.notFound "User" uid), todos) := by
  unfold TodoService.create
  rw [huid]
  have h1 : jsTruthyNum (some uid) = true := by
    simp [jsTruthyNum, hnz]
  have h2 : users.any (fun u => some u.id == some uid) = false := by
    rw [List.any_eq_false]
    intro u hu
    simp [habsent u hu]
  rw [h1, h2]
  rfl

/-- Witness for claim C8's amended theorem: userId 7 against an empty user
table. -/
theorem todoService_create_missing_user_not_found_witness :
    TodoService.create [] [] { title := "t", userId := some 7 } 1 0 0
      = (Except.error (SvcError.notFound "User" 7), []) :=
  todoService_create_missing_user_not_found [] [] { title := "t", userId := some 7 }
    1 0 0 7 rfl (by decide) (by intro u hu; cases hu)

/-- A first-match lookup by id commutes with a pointwise id-guarded
replacement whose replacement keeps the id matching. -/
theorem find?_id_map_update (db : List Todo) (id : Int) (f : Todo → Todo)
    (hf : ∀ v : Todo, (v.id == id) = true → ((f v).id == id) = true) (t0 : Todo)
    (h : db.find? (fun t => t.id == id) = some t0) :
    (db.map (fun u => if u.id == id then f u else u)).find? (fun t => t.id == id)
      = some (f t0) := by
  induction db with
  | nil => simp at h
  | cons a as ih =>
    rw [List.map_cons]
    by_cases ha : (a.id == id) = true
    · simp only [List.find?_cons, ha] at h
      injection h with h2
      subst h2
      rw [if_pos ha]
      simp only [List.find?_cons, hf a ha]
    · simp only [List.find?_cons, Bool.not_eq_true] at ha
      rw [if_neg (by simp [ha])]
      simp only [List.find?_cons, ha] at h ⊢
      exact ih h

/-- A row whose id differs from the written id is untouched by an id-guarded
pointwise replacement whose replacement keeps the id matching. -/
theorem mem_map_ite_of_ne (db : List Todo) (id : Int) (f : Todo → Todo)
    (hf : ∀ v : Todo, (v.id == id) = true → ((f v).id == id) = true)
    (u : Todo) (hu : u ∈ db.map (fun v => if v.id == id then f v else v))
    (hne : u.id ≠ id) : u ∈ db := by
  rcases List.mem_map.mp hu with ⟨v, hv, he⟩
  by_cases hc : (v.id == id) = true
  · rw [if_pos hc] at he
    have : u.id = id := by
      rw [← he]
      exact eq_of_beq (hf v hc)
    exact absurd this hne
  · rw [if_neg hc] at he
    subst he
    exact hv

/-- Evaluation of findById on a store whose first id match is t0: the call
succeeds, returns t0 with isExpired recomputed, and issues the correction
write exactly when it is due. -/
theorem findById_of_find? (db : List Todo) (id : Int) (now : Int) (t0 : Todo)
    (hfind : db.find? (fun t => t.id == id) = some t0) :
    TodoService.findById db id now
      = Except.ok
          { todo := { t0 with isExpired := calculateExpiration t0.startedTime t0.duration now },
            writes := if correctionDue t0 now then
                [(id, calculateExpiration t0.startedTime t0.duration now)]
              else [] } := by
  by_cases hdue : correctionDue t0 now = true
  · simp only [TodoService.findById, TodoService.findByIdCore, hfind]
    rw [if_pos hdue, if_pos hdue]
  · simp only [TodoService.findById, TodoService.findByIdCore, hfind]
    rw [if_neg hdue, if_neg hdue]

/-- The merged started time of a partial update: the supplied value where
given, otherwise the existing record's value (todo.service.ts lines 362-372). -/
def mergedStartedTime (d : TodoUpdateInput) (t : Todo) : Option Int :=
  match d.startedTime with
  | some s => some s
  | none => t.startedTime

/-- The merged duration of a partial update: the supplied value where given,
otherwise the existing record's value (todo.service.ts lines 374-380). -/
def mergedDuration (d : TodoUpdateInput) (t : Todo) : Option Int :=
  match d.duration with
  | some v => some v
  | none => t.duration

/-- Claim C6: for every todo update on an existing record, the call succeeds
and only the supplied fields are applied: each unsupplied field keeps the
existing record's value and each supplied field takes the supplied value;
when startedTime or duration is among the supplied fields, isExpired is
recomputed from the merged view (the supplied value where given, otherwise
the existing persisted value of the other field) and persisted in the same
write — the row stored for the id equals the returned record, isExpired
included — while rows with other ids are untouched. -/
theorem todoService_update_partial_merge
    (db : List Todo) (id : Int) (d : TodoUpdateInput) (now : Int) (t0 : Todo)
    (hfind : db.find? (fun t => t.id == id) = some t0) :
    ∃ r db₁,
      TodoService.update db id d now = Except.ok (r, db₁) ∧
      r.title = d.title.getD t0.title ∧
      r.completed = d.completed.getD t0.completed ∧
      r.tags = d.tags.getD t0.tags ∧
      r.startedTime = mergedStartedTime d t0 ∧
      r.duration = mergedDuration d t0 ∧
      ((d.startedTime.isSome || d.duration.isSome) = true →
        r.isExpired = calculateExpiration (mergedStartedTime d t0) (mergedDuration d t0) now) ∧
      db₁.find? (fun t => t.id == id) = some r ∧
      (∀ u ∈ db₁, u.id ≠ id → u ∈ db) := by
  have hid0 : (t0.id == id) = true := by simpa using List.find?_some hfind
  have hJ := findById_of_find? db id now t0 hfind
  by_cases hdue : correctionDue t0 now = true
  · rw [if_pos hdue] at hJ
    have hrow : ((applyWrite db (id, calculateExpiration t0.startedTime t0.duration now)).find?
          (fun t => t.id == id))
        = some { t0 with isExpired := calculateExpiration t0.startedTime t0.duration now } :=
      find?_id_map_update db id
        (fun u => { u with isExpired := calculateExpiration t0.startedTime t0.duration now })
        (fun v hv => hv) t0 hfind
    refine ⟨applyTodoUpdate
        { t0 with isExpired := calculateExpiration t0.startedTime t0.duration now } d
        (if (d.startedTime.isSome || d.duration.isSome) = true then
          some (calculateExpiration (mergedStartedTime d t0) (mergedDuration d t0) now)
        else none),
      (applyWrite db (id, calculateExpiration t0.startedTime t0.duration now)).map
        (fun u => if u.id == id then applyTodoUpdate
          { t0 with isExpired := calculateExpiration t0.startedTime t0.duration now } d
          (if (d.startedTime.isSome || d.duration.isSome) = true then
            some (calculateExpiration (mergedStartedTime d t0) (mergedDuration d t0) now)
          else none) else u),
      ?_, rfl, rfl, rfl, rfl, rfl, ?_, ?_, ?_⟩
    · simp only [TodoService.update, hJ, List.foldl, hrow]
      rfl
    · intro hcond
      simp only [applyTodoUpdate]
      rw [if_pos hcond]
      rfl
    · refine find?_id_map_update _ id _ ?_ _ hrow
      intro v hv
      exact hid0
    · intro u hu hne
      have h1 : u ∈ applyWrite db (id, calculateExpiration t0.startedTime t0.duration now) := by
        refine mem_map_ite_of_ne _ id _ ?_ u hu hne
        intro v hv
        exact hid0
      exact mem_map_ite_of_ne db id
        (fun v => { v with isExpired := calculateExpiration t0.startedTime t0.duration now })
        (fun v hv => hv) u h1 hne
  · rw [if_neg hdue] at hJ
    refine ⟨applyTodoUpdate t0 d
        (if (d.startedTime.isSome || d.duration.isSome) = true then
          some (calculateExpiration (mergedStartedTime d t0) (mergedDuration d t0) now)
        else none),
      db.map (fun u => if u.id == id then applyTodoUpdate t0 d
        (if (d.startedTime.isSome || d.duration.isSome) = true then
          some (calculateExpiration (mergedStartedTime d t0) (mergedDuration d t0) now)
        else none) else u),
      ?_, rfl, rfl, rfl, rfl, rfl, ?_, ?_, ?_⟩
    · simp only [TodoService.update, hJ, List.foldl, hfind]
      rfl
    · intro hcond
      simp only [applyTodoUpdate]
      rw [if_pos hcond]
      rfl
    · refine find?_id_map_update _ id _ ?_ _ hfind
      intro v hv
      exact hid0
    · intro u hu hne
      refine mem_map_ite_of_ne _ id _ ?_ u hu hne
      intro v hv
      exact hid0

/-- Witness for claim C6: update of a one-row store supplying only a new
duration of 2 minutes; the title, tags and startedTime keep their stored
values, the duration takes the supplied value and isExpired is recomputed
from the merged view. -/
theorem todoService_update_partial_merge_witness :
    ∃ r db₁,
      TodoService.update
          [{ id := 1, title := "x", completed := false, userId := none,
             startedTime := some 0, duration := some 5, tags := ["a"],
             isExpired := false, createdAt := 0 }] 1
          { duration := some 2 } 60000 = Except.ok (r, db₁) ∧
      r.title = "x" ∧
      r.completed = false ∧
      r.tags = ["a"] ∧
      r.startedTime = some 0 ∧
      r.duration = some 2 ∧
      (true = true → r.isExpired = calculateExpiration (some 0) (some 2) 60000) ∧
      db₁.find? (fun t => t.id == 1) = some r ∧
      (∀ u ∈ db₁, u.id ≠ 1 →
        u ∈ [{ id := 1, title := "x", completed := false, userId := none,
               startedTime := some 0, duration := some 5, tags := ["a"],
               isExpired := false, createdAt := 0 }]) :=
  todoService_update_partial_merge
    [{ id := 1, title := "x", completed := false, userId := none,
       startedTime := some 0, duration := some 5, tags := ["a"],
       isExpired := false, createdAt := 0 }] 1 { duration := some 2 } 60000
    { id := 1, title := "x", completed := false, userId := none,
      startedTime := some 0, duration := some 5, tags := ["a"],
      isExpired := false, createdAt := 0 } rfl

/-- On a user table whose rows have pairwise distinct keys, the first-match
lookup by the key of a member returns exactly that member. -/
theorem find?_key_of_mem {κ : Type} [BEq κ] [LawfulBEq κ] (key : User → κ)
    (db : List User) (k : κ) (x : User)
    (hd : db.Pairwise (fun a b => key a ≠ key b)) (hm : x ∈ db) (hk : key x = k) :
    db.find? (fun u => key u == k) = some x := by
  induction db with
  | nil => cases hm
  | cons a as ih =>
    rw [List.pairwise_cons] at hd
    rcases List.mem_cons.mp hm with rfl | hm2
    · simp only [List.find?_cons, hk, beq_self_eq_true]
    · have hne : (key a == k) = false := by
        rw [← hk]
        simp only [beq_eq_false_iff_ne, ne_eq]
        exact hd.1 x hm2
      simp only [List.find?_cons, hne]
      exact ih hd.2 hm2

/-- Two members of a user table with pairwise distinct keys that share a key
are the same row. -/
theorem mem_key_unique {κ : Type} (key : User → κ)
    (db : List User) (a b : User)
    (hd : db.Pairwise (fun x y => key x ≠ key y)) (ha : a ∈ db) (hb : b ∈ db)
    (hk : key a = key b) : a = b := by
  induction db with
  | nil => cases ha
  | cons c cs ih =>
    rw [List.pairwise_cons] at hd
    rcases List.mem_cons.mp ha with rfl | ha2
    · rcases List.mem_cons.mp hb with rfl | hb2
      · rfl
      · exact absurd hk (hd.1 b hb2)
    · rcases List.mem_cons.mp hb with rfl | hb2
      · exact absurd hk.symm (hd.1 a ha2)
      · exact ih hd.2 ha2 hb2

/-- Claim C7: UserService enforces email uniqueness. Create fails with
ConflictError exactly when a user with the given email already exists, and
then persists nothing. On a store state satisfying the store invariants
(distinct ids, distinct emails, every stored email nonempty — emails are
validated-nonempty before reaching the service), an update of an existing
user that supplies an email fails with ConflictError exactly when that email
belongs to a user whose id differs from the updated record's id, a conflict
persists nothing, and updating a user to its own current email succeeds. -/
theorem userService_email_uniqueness :
    (∀ (db : List User) (c : UserCreateInput) (newId : Int),
      ((UserService.create db c newId).1
          = Except.error (SvcError.conflict "User with this email already exists")
        ↔ ∃ u ∈ db, u.email = c.email) ∧
      ((∃ u ∈ db, u.email = c.email) → (UserService.create db c newId).2 = db)) ∧
    (∀ (db : List User) (id : Int) (d : UserUpdateInput) (u0 : User) (e : String),
      db.Pairwise (fun a b => a.id ≠ b.id) →
      db.Pairwise (fun a b => a.email ≠ b.email) →
      (∀ u ∈ db, u.email ≠ "") →
      u0 ∈ db → u0.id = id → d.email = some e →
      ((((UserService.update db id d).1
          = Except.error (SvcError.conflict "User with this email already exists"))
        ↔ ∃ u ∈ db, u.email = e ∧ u.id ≠ id) ∧
       ((UserService.update db id d).1
          = Except.error (SvcError.conflict "User with this email already exists")
        → (UserService.update db id d).2 = db) ∧
       (e = u0.email → (UserService.update db id d).1 = Except.ok (applyUserUpdate u0 d)))) := by
  constructor
  · intro db c newId
    cases hfe : db.find? (fun u => u.email == c.email) with
    | some ex =>
      have hmem : ex ∈ db := List.mem_of_find?_eq_some hfe
      have hpe : ex.email = c.email := by
        have hp := List.find?_some hfe
        simpa using hp
      refine ⟨⟨fun _ => ⟨ex, hmem, hpe⟩, fun _ => ?_⟩, fun _ => ?_⟩
      · simp [UserService.create, hfe]
      · simp [UserService.create, hfe]
    | none =>
      have hall := List.find?_eq_none.mp hfe
      have hno : ¬∃ u ∈ db, u.email = c.email := by
        rintro ⟨u, hu, hue⟩
        exact hall u hu (by simp [hue])
      refine ⟨⟨fun h => ?_, fun h => absurd h hno⟩, fun h => absurd h hno⟩
      simp [UserService.create, hfe] at h
  · intro db id d u0 e hIds hEmails hNoEmpty hm hid he
    have hfid : db.find? (fun u => u.id == id) = some u0 :=
      find?_key_of_mem (fun u => u.id) db id u0 hIds hm hid
    by_cases hee : e = ""
    · have hres1 : (UserService.update db id d).1 = Except.ok (applyUserUpdate u0 d) := by
        simp [UserService.update, hfid, he, hee, jsTruthyStr]
      have hiff : ¬∃ u ∈ db, u.email = e ∧ u.id ≠ id := by
        rintro ⟨u, hu, hue, _⟩
        exact hNoEmpty u hu (hue.trans (by rw [hee]))
      refine ⟨⟨fun h => ?_, fun h => absurd h hiff⟩, fun h => ?_, fun _ => hres1⟩
      · rw [hres1] at h
        exact Except.noConfusion h
      · rw [hres1] at h
        exact Except.noConfusion h
    · by_cases hex : ∃ u ∈ db, u.email = e
      · obtain ⟨w, hw, hwe⟩ := hex
        have hfe : db.find? (fun u => u.email == e) = some w :=
          find?_key_of_mem (fun u => u.email) db e w hEmails hw hwe
        by_cases hwid : w.id = id
        · have hres1 : (UserService.update db id d).1 = Except.ok (applyUserUpdate u0 d) := by
            simp [UserService.update, hfid, he, hfe, jsTruthyStr, hee, hwid]
          have hiff : ¬∃ u ∈ db, u.email = e ∧ u.id ≠ id := by
            rintro ⟨u, hu, hue, hne⟩
            have huw : u = w :=
              mem_key_unique (fun u => u.email) db u w hEmails hu hw (show u.email = w.email from hue.trans hwe.symm)
            exact hne (by rw [huw, hwid])
          refine ⟨⟨fun h => ?_, fun h => absurd h hiff⟩, fun h => ?_, fun _ => hres1⟩
          · rw [hres1] at h
            exact Except.noConfusion h
          · rw [hres1] at h
            exact Except.noConfusion h
        · have hres : UserService.update db id d
              = (Except.error (SvcError.conflict "User with this email already exists"), db) := by
            simp [UserService.update, hfid, he, hfe, jsTruthyStr, hee, hwid]
          refine ⟨⟨fun _ => ⟨w, hw, hwe, hwid⟩, fun _ => ?_⟩, fun _ => ?_, fun heq => ?_⟩
          · rw [hres]
          · rw [hres]
          · have hwu0 : w = u0 :=
              mem_key_unique (fun u => u.email) db w u0 hEmails hw hm (by show w.email = u0.email; rw [hwe, heq])
            exact absurd (by rw [hwu0, hid]) hwid
      · have hfe : db.find? (fun u => u.email == e) = none := by
          rw [List.find?_eq_none]
          intro x hx
          simp only [beq_iff_eq]
          intro hxe
          exact hex ⟨x, hx, hxe⟩
        have hres1 : (UserService.update db id d).1 = Except.ok (applyUserUpdate u0 d) := by
          simp [UserService.update, hfid, he, hfe, jsTruthyStr]
        have hiff : ¬∃ u ∈ db, u.email = e ∧ u.id ≠ id := by
          rintro ⟨u, hu, hue, _⟩
          exact hex ⟨u, hu, hue⟩
        refine ⟨⟨fun h => ?_, fun h => absurd h hiff⟩, fun h => ?_, fun _ => hres1⟩
        · rw [hres1] at h
          exact Except.noConfusion h
        · rw [hres1] at h
          exact Except.noConfusion h

/-- Witness for claim C7's update part: on a two-user store, updating user 2
to the email of user 1 conflicts (and persists nothing), while updating
user 2 to its own email would succeed. -/
theorem userService_email_uniqueness_witness :
    (((UserService.update
          [{ id := 1, name := "A", email := "a@x" },
           { id := 2, name := "B", email := "b@x" }] 2 { email := some "a@x" }).1
        = Except.error (SvcError.conflict "User with this email already exists"))
      ↔ ∃ u ∈ [({ id := 1, name := "A", email := "a@x" } : User),
               { id := 2, name := "B", email := "b@x" }], u.email = "a@x" ∧ u.id ≠ 2) ∧
    ((UserService.update
          [{ id := 1, name := "A", email := "a@x" },
           { id := 2, name := "B", email := "b@x" }] 2 { email := some "a@x" }).1
        = Except.error (SvcError.conflict "User with this email already exists")
      → (UserService.update
          [{ id := 1, name := "A", email := "a@x" },
           { id := 2, name := "B", email := "b@x" }] 2 { email := some "a@x" }).2
        = [{ id := 1, name := "A", email := "a@x" },
           { id := 2, name := "B", email := "b@x" }]) ∧
    ("a@x" = "b@x"
      → (UserService.update
          [{ id := 1, name := "A", email := "a@x" },
           { id := 2, name := "B", email := "b@x" }] 2 { email := some "a@x" }).1
        = Except.ok (applyUserUpdate { id := 2, name := "B", email := "b@x" }
            { email := some "a@x" })) :=
  userService_email_uniqueness.2
    [{ id := 1, name := "A", email := "a@x" },
     { id := 2, name := "B", email := "b@x" }] 2 { email := some "a@x" }
    { id := 2, name := "B", email := "b@x" } "a@x"
    (by decide) (by decide) (by decide) (by decide) rfl rfl

end PracticePrisma
